import Mathlib

/-!
Shallow embedding of `src/ai_project_cli.py` (LocalAIAssistant).

The program is a single-threaded CLI: a conversation engine around one HTTP
call (`chat_with_ai`), an action executor over a small command vocabulary
(`execute_action`), and JSON-file persistence (`save_project_state` /
`load_project_state`).  Python values exchanged with the model are JSON
documents; we embed them as the inductive `Json` below (numbers are modelled
as `Int`; no claim involves fractional numbers).  Filesystem mutation and
console output are modelled as an explicit, chronologically ordered effect
log.  Fallible Python code is modelled with an explicit `PyErr` outcome; an
uncaught exception in the source corresponds to an `ExecOut` whose `err`
field is `some e` (the effects performed before the raise are kept, as on a
real system).
-/

/-- JSON values, as produced by `json.loads` / consumed by `json.dump`.
`obj` models a Python dict: its key list is insertion-ordered and, for any
value actually arising in the program, duplicate-free. -/
inductive Json where
  | null : Json
  | bool : Bool → Json
  | num : Int → Json
  | str : String → Json
  | arr : List Json → Json
  | obj : List (String × Json) → Json
deriving Repr

/-- Python exceptions that the embedded fragments can raise. -/
inductive PyErr where
  /-- `OSError` raised by `open(path, 'w')`; the payload is the path. -/
  | osError : String → PyErr
  /-- `TypeError` (e.g. `f.write` on a non-string). -/
  | typeError : PyErr
  /-- `KeyError` for a missing dict key. -/
  | keyError : String → PyErr
  /-- `AttributeError` (e.g. `.get` / `.items` on a non-dict). -/
  | attributeError : PyErr
  /-- `UnboundLocalError` (a local variable read before assignment). -/
  | unboundLocal : PyErr
deriving DecidableEq, Repr

/-- `dict.get(k)` over the key/value list of a `Json.obj`: first binding wins
(dicts in the program never carry duplicate keys). -/
def getKey? (kvs : List (String × Json)) (k : String) : Option Json :=
  match kvs with
  | [] => none
  | (k', v) :: rest => if k' = k then some v else getKey? rest k

/-- `dict.get(k, d)`. -/
def getKeyD (kvs : List (String × Json)) (k : String) (d : Json) : Json :=
  (getKey? kvs k).getD d

/-- Python truthiness of a JSON value (`if x:`). -/
def pyTruthy : Json → Bool
  | Json.null => false
  | Json.bool b => b
  | Json.num n => n != 0
  | Json.str s => s != ""
  | Json.arr xs => !xs.isEmpty
  | Json.obj kvs => !kvs.isEmpty

mutual
/-- Python `repr` of a JSON value (used by `str` on containers). -/
def pyRepr : Json → String
  | Json.null => "None"
  | Json.bool true => "True"
  | Json.bool false => "False"
  | Json.num n => toString n
  | Json.str s => "\x27" ++ s ++ "\x27"
  | Json.arr xs => "[" ++ pyReprList xs ++ "]"
  | Json.obj kvs => "\x7b" ++ pyReprObj kvs ++ "\x7d"

/-- Comma-joined `repr`s of list elements. -/
def pyReprList : List Json → String
  | [] => ""
  | [x] => pyRepr x
  | x :: xs => pyRepr x ++ ", " ++ pyReprList xs

/-- Comma-joined `repr`s of dict entries. -/
def pyReprObj : List (String × Json) → String
  | [] => ""
  | [(k, v)] => "\x27" ++ k ++ "\x27: " ++ pyRepr v
  | (k, v) :: kvs => "\x27" ++ k ++ "\x27: " ++ pyRepr v ++ ", " ++ pyReprObj kvs
end

/-- Python `str()` of a JSON value, as interpolated by f-strings. -/
def pyStr : Json → String
  | Json.str s => s
  | v => pyRepr v

example : pyTruthy (Json.str "") = false := by decide
example : getKeyD [("a", Json.num 1)] "b" Json.null = Json.null := rfl
example : pyRepr (Json.arr [Json.num 1, Json.str "a"]) = "[1, \x27a\x27]" := by simp only [pyRepr, pyReprList]; rfl

/-! ## Strings and paths

The program manipulates POSIX paths through `pathlib.Path`.  Core library
string functions such as `String.splitOn` are implemented by byte-position
loops that the kernel cannot evaluate, so the few string operations the
source needs are defined here over character lists. -/

/-- Split a character list at `/`. -/
def splitSlashAux (acc : List Char) : List Char → List String
  | [] => [String.mk acc.reverse]
  | c :: cs =>
    if c = '/' then String.mk acc.reverse :: splitSlashAux [] cs
    else splitSlashAux (c :: acc) cs

/-- Split a string at `/`. -/
def splitSlash (s : String) : List String :=
  splitSlashAux [] s.data

/-- Does the path start with a separator (absolute POSIX path)? -/
def isAbsPath (p : String) : Bool :=
  p.data.head? = some '/'

/-- `str.replace(old, new)` for the one-character arguments the program
uses (`" "` → `"-"`). -/
def charReplace (a b : Char) (s : String) : String :=
  String.mk (s.data.map (fun c => if c = a then b else c))

/-- `str.lower()` (ASCII range; every string the program lowers is ASCII). -/
def pyLower (s : String) : String :=
  String.mk (s.data.map (fun c =>
    if 'A'.toNat ≤ c.toNat ∧ c.toNat ≤ 'Z'.toNat then Char.ofNat (c.toNat + 32) else c))

/-- String form of `pathlib.Path(p)`: collapses repeated and trailing
separators and `.` components; the empty path prints as `.`. -/
def normPath (p : String) : String :=
  let comps := (splitSlash p).filter (fun c => c ≠ "" ∧ c ≠ ".")
  let body := String.intercalate "/" comps
  if isAbsPath p then "/" ++ body
  else if body = "" then "." else body

/-- `Path(root) / rel`: an absolute right operand replaces the left one. -/
def pathJoin (root rel : String) : String :=
  if isAbsPath rel then normPath rel else normPath (root ++ "/" ++ rel)

/-- `Path(p).parent`. -/
def parentDir (p : String) : String :=
  let q := normPath p
  let comps := ((splitSlash q).filter (fun c => c ≠ "")).dropLast
  let body := String.intercalate "/" comps
  if isAbsPath q then "/" ++ body
  else if body = "" then "." else body

/-- `Path(p).name` (last component; empty for `/` and `.`). -/
def pathName (p : String) : String :=
  let q := normPath p
  if q = "." ∨ q = "/" then ""
  else (((splitSlash q).filter (fun c => c ≠ "")).getLast?).getD ""

example : pyLower (charReplace ' ' '-' "Q3 Review") = "q3-review" := by decide

example : pathJoin "proj" "src/main.py" = "proj/src/main.py" := by decide
example : parentDir "proj/src/main.py" = "proj/src" := by decide
example : pathName "home/proj" = "proj" := by decide

/-! ## Effects

Every observable interaction of `execute_action` / `main` with the outside
world (filesystem, console, operator) is logged in chronological order. -/

/-- One observable side effect. -/
inductive Effect where
  /-- `Path.mkdir(parents=True, exist_ok=True)`. -/
  | mkdir : String → Effect
  /-- `open(path, 'w')` followed by writes: the file ends holding `content`. -/
  | write : (path : String) → (content : String) → Effect
  /-- `json.dump(val, f)` over `open(path, 'w')`. -/
  | writeJson : (path : String) → (val : Json) → Effect
  /-- `print(line)`. -/
  | print : String → Effect
  /-- `os.walk(root)`: the read-only directory listing (its printed tree
  depends only on the on-disk state and is not itself modelled). -/
  | walk : String → Effect
  /-- `input(prompt)`: the operator is prompted. -/
  | promptUser : String → Effect

/-- Does an effect mutate the filesystem? -/
def Effect.mutatesFs : Effect → Bool
  | Effect.mkdir _ => true
  | Effect.write _ _ => true
  | Effect.writeJson _ _ => true
  | _ => false

/-- Is the effect a console report? -/
def Effect.isPrint : Effect → Bool
  | Effect.print _ => true
  | _ => false

/-- Final content of a file after a chronological effect log (`none` when no
write touched the path). -/
inductive FileVal where
  | text : String → FileVal
  | jsonVal : Json → FileVal

/-- Last write to `p` in the log wins. -/
def lastFileVal : List Effect → String → Option FileVal
  | [], _ => none
  | e :: later, p =>
    match lastFileVal later p with
    | some v => some v
    | none =>
      match e with
      | Effect.write q s => if q = p then some (FileVal.text s) else none
      | Effect.writeJson q v => if q = p then some (FileVal.jsonVal v) else none
      | _ => none

/-- The deserialized (`json.load`) content of file `p`, when its last write
was a `json.dump`. -/
def readJsonFile (fx : List Effect) (p : String) : Option Json :=
  match lastFileVal fx p with
  | some (FileVal.jsonVal v) => some v
  | _ => none

/-! ## Global state and constants -/

/-- `MILESTONE_FILE` (line 19). -/
def MILESTONE_FILE : String := "milestones.json"

/-- `STATE_FILE` (line 20). -/
def STATE_FILE : String := "project_config.json"

/-- The `create_files` directory sentinel. -/
def DIR_SENTINEL : String := "__CREATE_DIR__"

/-- The process-wide mutable state the embedded fragments touch: the working
directory (fixed for a run), the `root_dir` global, and the `chat_history`
global. -/
structure SessionSt where
  cwd : String
  rootDir : Option String
  history : List Json

/-- A `{"role": role, "parts": [{"text": text}]}` history entry. -/
def mkMsg (role text : String) : Json :=
  Json.obj [("role", Json.str role), ("parts", Json.arr [Json.obj [("text", Json.str text)]])]

/-- The JSON document `save_project_state` writes (lines 82-85). -/
def stateToJson (r : String) (h : List Json) : Json :=
  Json.obj [("root_dir", Json.str r), ("chat_history", Json.arr h)]

/-- `save_project_state` (lines 74-87): writes `STATE_FILE` when `root_dir`
is set, otherwise does nothing. -/
def save_project_state (st : SessionSt) : List Effect :=
  match st.rootDir with
  | some r => [Effect.writeJson STATE_FILE (stateToJson r st.history)]
  | none => []

/-- `load_project_state` (lines 89-104), applied to the parsed state-file
document.  `prevRoot` is the prior value of the `root_dir` global (kept when
the stored value is falsy).  A truthy non-string `root_dir` would fault in
`Path(...)` (`TypeError`).  The raw stored `chat_history` value is returned
as JSON exactly as Python binds it (the code does not validate it is a
list); `Json.arr []` is the `.get` default. -/
def load_project_state (prevRoot : Option String) (j : Json) :
    Except PyErr (Option String × Json) :=
  match j with
  | Json.obj kvs =>
    let rds := getKeyD kvs "root_dir" Json.null
    let hist := getKeyD kvs "chat_history" (Json.arr [])
    if pyTruthy rds then
      match rds with
      | Json.str s => Except.ok (some s, hist)
      | _ => Except.error PyErr.typeError
    else Except.ok (prevRoot, hist)
  | _ => Except.error PyErr.attributeError

/-! ## Action executor (`execute_action`, lines 177-270) -/

/-- Result of one embedded call: updated globals, chronological effect log,
and `some e` when an uncaught Python exception escapes the call (the
effects already performed are kept). -/
structure ExecOut where
  st : SessionSt
  fx : List Effect
  err : Option PyErr

/-- `str(e)` for an exception interpolated into an error report.  The exact
OS text is environment-dependent; an `OSError` is represented by the
affected path. -/
def pyErrMsg : PyErr → String
  | PyErr.osError p => p
  | PyErr.typeError => "TypeError"
  | PyErr.keyError k => "\x27" ++ k ++ "\x27"
  | PyErr.attributeError => "AttributeError"
  | PyErr.unboundLocal => "local variable \x27response\x27 referenced before assignment"

/-- `content == "__CREATE_DIR__"` (Python equality with a non-string value
is simply false). -/
def isSentinel : Json → Bool
  | Json.str s => s = DIR_SENTINEL
  | _ => false

/-- The `create_files` per-pair loop (lines 201-213).  For the sentinel the
directory is created; otherwise the parent directory is created and the
file written.  `open(path, 'w')` fails on the paths marked by `ioErr`; the
loop body has no `try`, so the first raise aborts the remaining pairs.  A
non-string content opens (truncating the file) and then `f.write` raises
`TypeError`. -/
def createFilesLoop (ioErr : String → Bool) (root : String) :
    List (String × Json) → List Effect × Option PyErr
  | [] => ([], none)
  | (path, content) :: rest =>
    let itemPath := pathJoin root path
    if isSentinel content then
      let r := createFilesLoop ioErr root rest
      (Effect.mkdir itemPath :: Effect.print ("  - Created directory: " ++ itemPath) :: r.1,
        r.2)
    else if ioErr itemPath then
      ([Effect.mkdir (parentDir itemPath)], some (PyErr.osError itemPath))
    else
      match content with
      | Json.str s =>
        let r := createFilesLoop ioErr root rest
        (Effect.mkdir (parentDir itemPath) :: Effect.write itemPath s ::
          Effect.print ("  - Created file: " ++ itemPath) :: r.1, r.2)
      | _ =>
        ([Effect.mkdir (parentDir itemPath), Effect.write itemPath ""],
          some PyErr.typeError)

/-- One slide block per iteration (lines 257-259).  A non-dict slide makes
`slide.get` raise `AttributeError` after the earlier blocks were already
written; the surrounding `try` catches it. -/
def slidesLoop (i : Nat) : List Json → String × Option PyErr
  | [] => ("", none)
  | s :: rest =>
    match s with
    | Json.obj skvs =>
      let block := "## Slide " ++ toString (i + 1) ++ ": " ++
        pyStr (getKeyD skvs "heading" (Json.str "Slide Heading")) ++ "\n\n" ++
        pyStr (getKeyD skvs "content" (Json.str "Slide content here.")) ++ "\n\n---\n\n"
      let r := slidesLoop (i + 1) rest
      (block ++ r.1, r.2)
    | _ => ("", some PyErr.attributeError)

/-- The slide sections of the presentation document; `enumerate` over a
non-list `slides` value raises `TypeError` (caught by the `try`). -/
def slidesText : Json → String × Option PyErr
  | Json.arr xs => slidesLoop 0 xs
  | _ => ("", some PyErr.typeError)

/-- `execute_action(action)` (lines 177-270), with the mutable globals in
`st`.  `ioErr` marks the paths on which `open(path, 'w')` raises `OSError`
(directory creation is modelled as always succeeding); `promptName` is the
operator's reply should `init_project` lack a project name. -/
def execute_action (ioErr : String → Bool) (promptName : String) (action : Json)
    (st : SessionSt) : ExecOut :=
  match action with
  | Json.obj kvs =>
    let payload := getKeyD kvs "payload" (Json.obj [])
    match getKey? kvs "command" with
    | some (Json.str c) =>
      if c = "init_project" then
        match payload with
        | Json.obj pkvs =>
          let pn := getKeyD pkvs "project_name" Json.null
          if pyTruthy pn then
            match pn with
            | Json.str name =>
              let root := pathJoin st.cwd name
              let st' : SessionSt := ⟨st.cwd, some root, st.history⟩
              ⟨st', [Effect.mkdir root,
                Effect.print ("Project directory created at: " ++ root)] ++
                save_project_state st', none⟩
            | _ => ⟨st, [], some PyErr.typeError⟩
          else
            let root := pathJoin st.cwd promptName
            let st' : SessionSt := ⟨st.cwd, some root, st.history⟩
            ⟨st', [Effect.promptUser "What\x27s the name of the new project? ",
              Effect.mkdir root,
              Effect.print ("Project directory created at: " ++ root)] ++
              save_project_state st', none⟩
        | _ => ⟨st, [], some PyErr.attributeError⟩
      else if c = "create_files" then
        match st.rootDir with
        | none => ⟨st, [Effect.print "Error: You must first initialize a project. Please ask me to \x27init_project\x27 with a name."], none⟩
        | some r =>
          match payload with
          | Json.obj pkvs =>
            let res := createFilesLoop ioErr r pkvs
            ⟨st, res.1, res.2⟩
          | _ => ⟨st, [], some PyErr.attributeError⟩
      else if c = "list_files" then
        match st.rootDir with
        | none => ⟨st, [Effect.print "Please create a project first."], none⟩
        | some r =>
          ⟨st, [Effect.print ("Directory structure for \x27" ++ pathName r ++ "\x27:"),
            Effect.walk r], none⟩
      else if c = "milestones" then
        match st.rootDir with
        | none => ⟨st, [Effect.print "Please create a project first."], none⟩
        | some r =>
          let milestonePath := pathJoin r MILESTONE_FILE
          if ioErr milestonePath then
            ⟨st, [Effect.print ("Error writing to milestone file: " ++
              pyErrMsg (PyErr.osError milestonePath))], none⟩
          else
            ⟨st, [Effect.writeJson milestonePath payload,
              Effect.print ("  - Updated milestones in \x27" ++ milestonePath ++ "\x27")],
              none⟩
      else if c = "create_presentation_plan" then
        match st.rootDir with
        | none => ⟨st, [Effect.print "Please create a project first."], none⟩
        | some r =>
          match payload with
          | Json.obj pkvs =>
            match getKeyD pkvs "title" (Json.str "presentation-plan") with
            | Json.str t =>
              let slug := pyLower (charReplace ' ' '-' t)
              let presPath := pathJoin r (slug ++ ".md")
              if ioErr presPath then
                ⟨st, [Effect.print ("Error writing presentation plan: " ++
                  pyErrMsg (PyErr.osError presPath))], none⟩
              else
                let header := "# " ++ pyStr (getKeyD pkvs "title" (Json.str "Presentation Title")) ++ "\n" ++
                  "**Audience:** " ++ pyStr (getKeyD pkvs "audience" (Json.str "General")) ++ "\n\n---\n\n"
                let sres := slidesText (getKeyD pkvs "slides" (Json.arr []))
                match sres.2 with
                | none =>
                  ⟨st, [Effect.write presPath (header ++ sres.1),
                    Effect.print ("  - Created presentation plan at: \x27" ++ presPath ++ "\x27")],
                    none⟩
                | some e =>
                  ⟨st, [Effect.write presPath (header ++ sres.1),
                    Effect.print ("Error writing presentation plan: " ++ pyErrMsg e)], none⟩
            | _ => ⟨st, [], some PyErr.attributeError⟩
          | _ => ⟨st, [], some PyErr.attributeError⟩
      else if c = "no_action" then ⟨st, [], none⟩
      else ⟨st, [Effect.print ("Unknown command received from AI: " ++ c)], none⟩
    | some v => ⟨st, [Effect.print ("Unknown command received from AI: " ++ pyStr v)], none⟩
    | none => ⟨st, [Effect.print "Unknown command received from AI: None"], none⟩
  | _ => ⟨st, [], some PyErr.attributeError⟩

/-- An `{"command": c, "payload": p}` action object. -/
def mkAction (c : String) (p : Json) : Json :=
  Json.obj [("command", Json.str c), ("payload", p)]

/-! ## Approval gate (`main`, lines 298-351) -/

/-- The decline notice appended to history (line 346). -/
def declineMsg : Json :=
  mkMsg "user" "I did not approve the previous action. Let\x27s try something else."

/-- The mechanical description of a pending action (lines 317-334), built
from the action object's command and payload.  An error models an uncaught
exception during the synthesis (`payload.items()` / `payload.get` on a
non-dict). -/
def actionDescription (akvs : List (String × Json)) : Except PyErr String :=
  let payload := getKeyD akvs "payload" (Json.obj [])
  match getKey? akvs "command" with
  | some (Json.str c) =>
    if c = "init_project" then
      match payload with
      | Json.obj pkvs =>
        Except.ok ("create the project directory named \x27" ++
          pyStr (getKeyD pkvs "project_name" Json.null) ++ "\x27.")
      | _ => Except.error PyErr.attributeError
    else if c = "create_files" then
      match payload with
      | Json.obj pkvs =>
        let files := (pkvs.filter (fun kv => !(isSentinel kv.2))).map Prod.fst
        let dirs := (pkvs.filter (fun kv => isSentinel kv.2)).map Prod.fst
        Except.ok (
          if !files.isEmpty && !dirs.isEmpty then
            "create the following directories: " ++ String.intercalate ", " dirs ++
              " and files: " ++ String.intercalate ", " files ++ "."
          else if !files.isEmpty then
            "create the following files: " ++ String.intercalate ", " files ++ "."
          else if !dirs.isEmpty then
            "create the following directories: " ++ String.intercalate ", " dirs ++ "."
          else "")
      | _ => Except.error PyErr.attributeError
    else if c = "milestones" then Except.ok "update the project milestones."
    else if c = "create_presentation_plan" then
      match payload with
      | Json.obj pkvs =>
        Except.ok ("create a Markdown file for the \x27" ++
          pyStr (getKeyD pkvs "title" (Json.str "presentation plan")) ++ "\x27 presentation.")
      | _ => Except.error PyErr.attributeError
    else Except.ok ""
  | _ => Except.ok ""

/-- One iteration of `main`'s conversational loop after `chat_with_ai`
returned a parsed response (lines 308-351): print the message, run the
approval gate for approval-flagged truthy actions (`approval` is the
operator's reply to the y/n prompt), execute and persist, or on decline
append the fixed notice to history. -/
def main_turn (ioErr : String → Bool) (promptName approval : String) (resp : Json)
    (st : SessionSt) : ExecOut :=
  match resp with
  | Json.obj rkvs =>
    match getKey? rkvs "message" with
    | none => ⟨st, [], some (PyErr.keyError "message")⟩
    | some m =>
      let fx0 := [Effect.print ("\nAI: " ++ pyStr m)]
      let action := getKeyD rkvs "action" Json.null
      let requires := getKeyD rkvs "requires_approval" (Json.bool false)
      if pyTruthy action && pyTruthy requires then
        match action with
        | Json.obj akvs =>
          match actionDescription akvs with
          | Except.error e => ⟨st, fx0, some e⟩
          | Except.ok desc =>
            let fx1 := if desc ≠ "" then
              [Effect.print ("\nWith your approval, I will " ++ desc)] else []
            let fx2 := [Effect.promptUser "Do you approve this action? (y/n): "]
            if pyLower approval = "y" then
              let ex := execute_action ioErr promptName action st
              match ex.err with
              | none => ⟨ex.st, fx0 ++ fx1 ++ fx2 ++ ex.fx ++ save_project_state ex.st, none⟩
              | some e => ⟨ex.st, fx0 ++ fx1 ++ fx2 ++ ex.fx, some e⟩
            else
              ⟨⟨st.cwd, st.rootDir, st.history ++ [declineMsg]⟩,
                fx0 ++ fx1 ++ fx2 ++
                  [Effect.print "Action cancelled. Please provide new instructions."], none⟩
        | _ => ⟨st, fx0, some PyErr.attributeError⟩
      else if pyTruthy action then
        let ex := execute_action ioErr promptName action st
        match ex.err with
        | none => ⟨ex.st, fx0 ++ ex.fx ++ save_project_state ex.st, none⟩
        | some e => ⟨ex.st, fx0 ++ ex.fx, some e⟩
      else ⟨st, fx0, none⟩
  | _ => ⟨st, [], some PyErr.typeError⟩

/-! ## Conversation engine (`chat_with_ai`, lines 122-175)

Each pass through the `while retries < 5` loop makes one request; the
environment's behaviour on attempt `n` is an oracle value.  The local
variable `response` is only assigned when `requests.post` returns, so the
diagnostic in the `RequestException` handler reads it unassigned when the
very first failing attempt raised inside `requests.post` itself. -/

/-- Behaviour of the remote endpoint on one attempt. -/
inductive Outcome where
  /-- `requests.post` itself raises (connection error / timeout): a
  `RequestException` with the local `response` not assigned this attempt. -/
  | postRaises : Outcome
  /-- `requests.post` returns but `raise_for_status` raises (non-2xx). -/
  | badStatus : Outcome
  /-- 2xx reply whose extracted text fails `json.loads` (or the candidate
  navigation fails); `e` is the exception text. -/
  | malformed : (e : String) → Outcome
  /-- 2xx reply whose text `raw` parses to the JSON value `parsed`. -/
  | good : (raw : String) → (parsed : Json) → Outcome

/-- State of the retry loop: the `retries` counter, the `chat_history`
global, whether the local `response` has ever been assigned, and the
`time.sleep` delays performed so far. -/
structure LoopSt where
  retries : Nat
  history : List Json
  responseBound : Bool
  delays : List Nat

/-- How a `chat_with_ai` call ends. -/
inductive ChatOut where
  /-- A parsed response is returned (line 158). -/
  | ok : Json → LoopSt → ChatOut
  /-- The retry budget is exhausted; the function returns `None` (line 175). -/
  | failed : LoopSt → ChatOut
  /-- An uncaught exception escapes the call. -/
  | crashed : PyErr → LoopSt → ChatOut
  /-- Fuel ran out with the loop still running. -/
  | running : LoopSt → ChatOut

/-- The corrective re-format prompt (line 169). -/
def reformatPrompt (e : String) : String :=
  "The previous response was not a valid JSON object. Please re-format your response into a single JSON object with \x27message\x27 and \x27action\x27 keys. The error was: " ++ e

/-- One pass of the retry loop body (lines 144-172): `Sum.inl` continues the
loop, `Sum.inr` leaves the call. -/
def chatStep (o : Outcome) (st : LoopSt) : LoopSt ⊕ ChatOut :=
  match o with
  | Outcome.good raw parsed =>
    Sum.inr (ChatOut.ok parsed
      ⟨st.retries, st.history ++ [mkMsg "model" raw], true, st.delays⟩)
  | Outcome.malformed e =>
    Sum.inl ⟨st.retries, st.history ++ [mkMsg "user" (reformatPrompt e)], true, st.delays⟩
  | Outcome.badStatus =>
    Sum.inl ⟨st.retries + 1, st.history, true, st.delays ++ [2 ^ (st.retries + 1)]⟩
  | Outcome.postRaises =>
    if st.responseBound then
      Sum.inl ⟨st.retries + 1, st.history, true, st.delays ++ [2 ^ (st.retries + 1)]⟩
    else
      Sum.inr (ChatOut.crashed PyErr.unboundLocal
        ⟨st.retries + 1, st.history, false, st.delays⟩)

/-- The `while retries < 5` loop (lines 143-172), driven by the oracle and a
fuel bound on the number of iterations observed. -/
def runChat (oracle : Nat → Outcome) (fuel : Nat) (st : LoopSt) : ChatOut :=
  match fuel with
  | 0 => ChatOut.running st
  | fuel + 1 =>
    if st.retries < 5 then
      match chatStep (oracle 0) st with
      | Sum.inl st' => runChat (fun n => oracle (n + 1)) fuel st'
      | Sum.inr r => r
    else ChatOut.failed st

/-- `chat_with_ai(user_input)` (lines 122-175): append the user message to
history, then run the retry loop. -/
def chat_with_ai (userInput : String) (history : List Json)
    (oracle : Nat → Outcome) (fuel : Nat) : ChatOut :=
  runChat oracle fuel ⟨0, history ++ [mkMsg "user" userInput], false, []⟩

/-! ## Derived observations used by the claims -/

/-- The executor reported (printed), left the globals untouched, mutated
nothing on disk, and raised no exception. -/
def reportsAndLeavesAlone (out : ExecOut) (st : SessionSt) : Prop :=
  out.st = st ∧ out.fx.filter Effect.mutatesFs = [] ∧
    out.fx.any Effect.isPrint = true ∧ out.err = none

/-- State-file writes contained in an effect log. -/
def stateFileWrites (fx : List Effect) : List Effect :=
  fx.filter (fun e => match e with
    | Effect.writeJson p _ => p = STATE_FILE
    | _ => false)

/-- Does the log write a *file* whose full content is the directory
sentinel? -/
def writesSentinelFile (fx : List Effect) : Bool :=
  fx.any (fun e => match e with
    | Effect.write _ c => c = DIR_SENTINEL
    | _ => false)

/-- An oracle under which no `open(_, 'w')` fails. -/
def noIoErr : String → Bool := fun _ => false

/-! ## C4 — actions requiring `root_dir` are no-ops without it -/

/-- C4: with `root_dir` unset, each of `create_files`, `list_files`,
`milestones` and `create_presentation_plan` only prints a report: the
globals are unchanged, no filesystem effect happens, and no exception
escapes (the process is not terminated), whatever the payload. -/
theorem unset_root_commands_report_and_do_nothing
    (ioErr : String → Bool) (pn cwd : String) (payload : Json) (hist : List Json) :
    reportsAndLeavesAlone
      (execute_action ioErr pn (mkAction "create_files" payload) ⟨cwd, none, hist⟩)
      ⟨cwd, none, hist⟩ ∧
    reportsAndLeavesAlone
      (execute_action ioErr pn (mkAction "list_files" payload) ⟨cwd, none, hist⟩)
      ⟨cwd, none, hist⟩ ∧
    reportsAndLeavesAlone
      (execute_action ioErr pn (mkAction "milestones" payload) ⟨cwd, none, hist⟩)
      ⟨cwd, none, hist⟩ ∧
    reportsAndLeavesAlone
      (execute_action ioErr pn (mkAction "create_presentation_plan" payload) ⟨cwd, none, hist⟩)
      ⟨cwd, none, hist⟩ :=
  ⟨⟨rfl, rfl, rfl, rfl⟩, ⟨rfl, rfl, rfl, rfl⟩, ⟨rfl, rfl, rfl, rfl⟩, ⟨rfl, rfl, rfl, rfl⟩⟩

/-! ## C8 — presentation plan output -/

/-- The claim's `create_presentation_plan` payload. -/
def presPayload : Json :=
  Json.obj [("title", Json.str "Q3 Review"), ("audience", Json.str "Execs"),
    ("slides", Json.arr [Json.obj [("heading", Json.str "Intro"), ("content", Json.str "Hello")]])]

/-- C8: on the claim's payload the executor writes `q3-review.md` (slugified
title) under the project root, holding — in order — the title heading, the
audience line, and the one slide section with its heading and content, the
slide block terminated by a horizontal rule; it then reports and raises
nothing. -/
theorem presentation_plan_output :
    execute_action noIoErr "" (mkAction "create_presentation_plan" presPayload)
        ⟨"cwd", some "proj", []⟩ =
      ⟨⟨"cwd", some "proj", []⟩,
        [Effect.write "proj/q3-review.md"
          ("# Q3 Review\n" ++
            ("**Audience:** Execs\n\n---\n\n" ++
              ("## Slide 1: Intro\n\n" ++ "Hello\n\n---\n\n"))),
         Effect.print "  - Created presentation plan at: \x27proj/q3-review.md\x27"],
        none⟩ := rfl

/-! ## C9 — ProjectState round trip -/

/-- C9: with `root_dir` set, `save_project_state` writes exactly the state
document, and `load_project_state` on that document restores the identical
root-directory string and the identical ordered history (stored as the
`chat_history` array).  The hypothesis `r ≠ ""` holds for every real root:
`str(Path(...))` is never empty. -/
theorem project_state_round_trip (cwd r : String) (h : List Json)
    (prevRoot : Option String) (hr : r ≠ "") :
    save_project_state ⟨cwd, some r, h⟩ =
      [Effect.writeJson STATE_FILE (stateToJson r h)] ∧
    load_project_state prevRoot (stateToJson r h) = Except.ok (some r, Json.arr h) := by
  refine ⟨rfl, ?_⟩
  simp [load_project_state, stateToJson, getKeyD, getKey?, pyTruthy, hr]

/-- Witness for C9 at a concrete state. -/
theorem project_state_round_trip_witness :
    "home/proj" ≠ "" ∧
    load_project_state none (stateToJson "home/proj" [mkMsg "user" "hi"]) =
      Except.ok (some "home/proj", Json.arr [mkMsg "user" "hi"]) :=
  ⟨by decide, (project_state_round_trip "cwd" "home/proj" [mkMsg "user" "hi"] none (by decide)).2⟩

/-! ## C7 — milestones file content and full replacement -/

/-- The milestone entry named in the claim. -/
def mvpMilestone : Json :=
  Json.obj [("name", Json.str "MVP"), ("status", Json.str "In Progress"),
    ("notes", Json.str "half done")]

/-- The claim's `milestones` payload. -/
def milestonesPayload : Json := Json.obj [("milestones", Json.arr [mvpMilestone])]

/-- C7 counterexample: on the claim's payload, the milestone file's
deserialized content is the whole payload object (`json.dump(payload, f)`,
line 238) — the object whose `"milestones"` member is the list — and that
object is not equal to the milestone list itself, contradicting the claim's
"deserialized content exactly equals that milestone list". -/
theorem milestones_file_holds_payload_object_cex :
    readJsonFile
      (execute_action noIoErr "" (mkAction "milestones" milestonesPayload)
        ⟨"cwd", some "proj", []⟩).fx "proj/milestones.json" = some milestonesPayload ∧
    milestonesPayload ≠ Json.arr [mvpMilestone] := by
  refine ⟨rfl, ?_⟩
  simp [milestonesPayload]

/-- C7 (amended): a `milestones` command fully overwrites the milestone
file with its payload object, and after two successive commands the file's
deserialized content is exactly the second payload — nothing of the first
survives. -/
theorem milestones_overwrite (ioErr : String → Bool) (pn cwd r : String)
    (hist hist2 : List Json) (P1 P2 : Json)
    (hio : ioErr (pathJoin r MILESTONE_FILE) = false) :
    readJsonFile ((execute_action ioErr pn (mkAction "milestones" P1) ⟨cwd, some r, hist⟩).fx ++
        (execute_action ioErr pn (mkAction "milestones" P2) ⟨cwd, some r, hist2⟩).fx)
      (pathJoin r MILESTONE_FILE) = some P2 ∧
    readJsonFile (execute_action ioErr pn (mkAction "milestones" P1) ⟨cwd, some r, hist⟩).fx
      (pathJoin r MILESTONE_FILE) = some P1 := by
  simp [execute_action, mkAction, getKeyD, getKey?, hio, readJsonFile, lastFileVal]

/-- Witness for C7 (amended) at the claim's payload and a second list. -/
theorem milestones_overwrite_witness :
    noIoErr (pathJoin "proj" MILESTONE_FILE) = false ∧
    readJsonFile ((execute_action noIoErr "" (mkAction "milestones" milestonesPayload)
          ⟨"cwd", some "proj", []⟩).fx ++
        (execute_action noIoErr "" (mkAction "milestones" (Json.obj [("milestones", Json.arr [])]))
          ⟨"cwd", some "proj", []⟩).fx)
      (pathJoin "proj" MILESTONE_FILE) = some (Json.obj [("milestones", Json.arr [])]) :=
  ⟨rfl, (milestones_overwrite noIoErr "" "cwd" "proj" [] [] milestonesPayload
    (Json.obj [("milestones", Json.arr [])]) rfl).1⟩

/-! ## C10 / C2 — the `create_files` loop -/

/-- The pair is processed by the `create_files` loop without raising: either
the directory sentinel, or a string content whose path opens successfully. -/
def pairOk (ioErr : String → Bool) (root : String) (pc : String × Json) : Bool :=
  isSentinel pc.2 ||
    (match pc.2 with
     | Json.str _ => !(ioErr (pathJoin root pc.1))
     | _ => false)

/-- No iteration of the `create_files` loop ever writes a file whose content
is the directory sentinel: the sentinel comparison (line 205) diverts such
pairs to `mkdir` before any `open`. -/
theorem createFilesLoop_no_sentinel (ioErr : String → Bool) (root : String) :
    ∀ kvs, writesSentinelFile (createFilesLoop ioErr root kvs).1 = false := by
  intro kvs
  induction kvs with
  | nil => rfl
  | cons pc rest ih =>
    obtain ⟨path, content⟩ := pc
    simp only [createFilesLoop]
    split
    · next hs =>
      simpa [writesSentinelFile, Effect.mutatesFs] using ih
    · next hs =>
      split
      · simp [writesSentinelFile]
      · next hio =>
        match content, hs with
        | Json.str s, hs =>
          have hsd : (s = DIR_SENTINEL) = False := by
            simp [isSentinel] at hs
            simp [hs]
          simpa [writesSentinelFile, hsd] using ih
        | Json.null, _ => simp [writesSentinelFile, DIR_SENTINEL]
        | Json.bool b, _ => simp [writesSentinelFile, DIR_SENTINEL]
        | Json.num n, _ => simp [writesSentinelFile, DIR_SENTINEL]
        | Json.arr xs, _ => simp [writesSentinelFile, DIR_SENTINEL]
        | Json.obj o, _ => simp [writesSentinelFile, DIR_SENTINEL]

/-- A prefix of pairs that all process cleanly contributes its effects and
passes control to the rest of the payload. -/
theorem createFilesLoop_append_ok (ioErr : String → Bool) (root : String)
    (kvs1 kvs2 : List (String × Json)) (h : kvs1.all (pairOk ioErr root) = true) :
    createFilesLoop ioErr root (kvs1 ++ kvs2) =
      ((createFilesLoop ioErr root kvs1).1 ++ (createFilesLoop ioErr root kvs2).1,
        (createFilesLoop ioErr root kvs2).2) := by
  induction kvs1 with
  | nil => simp [createFilesLoop]
  | cons pc rest ih =>
    obtain ⟨path, content⟩ := pc
    simp only [List.all_cons, Bool.and_eq_true] at h
    obtain ⟨hpc, hrest⟩ := h
    simp only [List.cons_append, createFilesLoop]
    by_cases hs : isSentinel content = true
    · simp [hs, ih hrest]
    · match content, hpc, hs with
      | Json.str s, hpc, hs =>
        simp only [pairOk, Bool.or_eq_true] at hpc
        rcases hpc with hpc | hpc
        · exact absurd hpc hs
        · simp only [Bool.not_eq_true'] at hpc
          simp [hs, hpc, ih hrest]
      | Json.null, hpc, _ => simp [pairOk, isSentinel] at hpc
      | Json.bool b, hpc, _ => simp [pairOk, isSentinel] at hpc
      | Json.num n, hpc, _ => simp [pairOk, isSentinel] at hpc
      | Json.arr xs, hpc, _ => simp [pairOk, isSentinel] at hpc
      | Json.obj o, hpc, _ => simp [pairOk, isSentinel] at hpc

/-- C10: (1) no `execute_action` call, on any action, ever writes a file
whose full content is the directory sentinel — it is unreachable as file
content through the action interface; (2) a `create_files` pair carrying
the sentinel is realised as a created directory whenever the pairs before
it process cleanly. -/
theorem sentinel_pairs_become_directories :
    (∀ (ioErr : String → Bool) (pn : String) (action : Json) (st : SessionSt),
      writesSentinelFile (execute_action ioErr pn action st).fx = false) ∧
    (∀ (ioErr : String → Bool) (pn cwd r : String) (hist : List Json) (path : String)
      (kvs1 kvs2 : List (String × Json)), kvs1.all (pairOk ioErr r) = true →
      Effect.mkdir (pathJoin r path) ∈
        (execute_action ioErr pn
          (mkAction "create_files" (Json.obj (kvs1 ++ (path, Json.str DIR_SENTINEL) :: kvs2)))
          ⟨cwd, some r, hist⟩).fx) := by
  constructor
  · intro ioErr pn action st
    unfold execute_action
    dsimp only
    repeat' split
    all_goals
      first
      | rfl
      | (apply createFilesLoop_no_sentinel)
  · intro ioErr pn cwd r hist path kvs1 kvs2 h
    have key : Effect.mkdir (pathJoin r path) ∈
        (createFilesLoop ioErr r (kvs1 ++ (path, Json.str DIR_SENTINEL) :: kvs2)).1 := by
      rw [createFilesLoop_append_ok ioErr r kvs1 _ h]
      simp [createFilesLoop, isSentinel, DIR_SENTINEL]
    exact key

/-- Witness for C10 on a concrete mixed payload. -/
theorem sentinel_pairs_become_directories_witness :
    [("a.txt", Json.str "x")].all (pairOk noIoErr "proj") = true ∧
    Effect.mkdir (pathJoin "proj" "docs") ∈
      (execute_action noIoErr ""
        (mkAction "create_files"
          (Json.obj ([("a.txt", Json.str "x")] ++ ("docs", Json.str DIR_SENTINEL) :: [])))
        ⟨"cwd", some "proj", []⟩).fx :=
  ⟨by decide, sentinel_pairs_become_directories.2 noIoErr "" "cwd" "proj" [] "docs"
    [("a.txt", Json.str "x")] [] (by decide)⟩

/-- C2 counterexample: with `root_dir` set and the two-pair payload
`{"a.txt": "x", "b.txt": "y"}` where opening `proj/a.txt` fails, the loop
performs only the parent `mkdir`, prints no per-path report, never touches
`b.txt`, and the `OSError` escapes `execute_action` uncaught (there is no
`try` around lines 201-213), so the surrounding `main` loop — which calls
`execute_action` bare — crashes. -/
theorem create_files_partial_failure_cex :
    execute_action (fun p => p = "proj/a.txt") "" (mkAction "create_files"
        (Json.obj [("a.txt", Json.str "x"), ("b.txt", Json.str "y")]))
      ⟨"cwd", some "proj", []⟩ =
      ⟨⟨"cwd", some "proj", []⟩, [Effect.mkdir "proj"], some (PyErr.osError "proj/a.txt")⟩ ∧
    lastFileVal [Effect.mkdir "proj"] "proj/b.txt" = none ∧
    [Effect.mkdir "proj"].any Effect.isPrint = false :=
  ⟨rfl, rfl, rfl⟩

/-- C2 (amended): an `open` failure inside `create_files` stops the batch at
the failing pair — the cleanly processed prefix keeps its effects, only the
parent `mkdir` of the failing path happens, nothing after it is processed —
and the `OSError` propagates out of `execute_action`. -/
theorem create_files_io_error_propagates (ioErr : String → Bool) (pn cwd r : String)
    (hist : List Json) (kvs1 kvs2 : List (String × Json)) (path s : String)
    (h1 : kvs1.all (pairOk ioErr r) = true) (hs : s ≠ DIR_SENTINEL)
    (h2 : ioErr (pathJoin r path) = true) :
    execute_action ioErr pn
        (mkAction "create_files" (Json.obj (kvs1 ++ (path, Json.str s) :: kvs2)))
        ⟨cwd, some r, hist⟩ =
      ⟨⟨cwd, some r, hist⟩,
        (createFilesLoop ioErr r kvs1).1 ++ [Effect.mkdir (parentDir (pathJoin r path))],
        some (PyErr.osError (pathJoin r path))⟩ := by
  have key : createFilesLoop ioErr r (kvs1 ++ (path, Json.str s) :: kvs2) =
      ((createFilesLoop ioErr r kvs1).1 ++ [Effect.mkdir (parentDir (pathJoin r path))],
        some (PyErr.osError (pathJoin r path))) := by
    rw [createFilesLoop_append_ok ioErr r kvs1 _ h1]
    simp [createFilesLoop, isSentinel, hs, h2]
  have out_eq :
      (⟨⟨cwd, some r, hist⟩,
        (createFilesLoop ioErr r (kvs1 ++ (path, Json.str s) :: kvs2)).1,
        (createFilesLoop ioErr r (kvs1 ++ (path, Json.str s) :: kvs2)).2⟩ : ExecOut) =
      ⟨⟨cwd, some r, hist⟩,
        (createFilesLoop ioErr r kvs1).1 ++ [Effect.mkdir (parentDir (pathJoin r path))],
        some (PyErr.osError (pathJoin r path))⟩ := by
    rw [key]
  exact out_eq

/-- Witness for C2 (amended) on a concrete payload with a clean prefix, a
failing middle pair, and an unprocessed suffix. -/
theorem create_files_io_error_propagates_witness :
    [("ok.txt", Json.str "fine")].all (pairOk (fun p => p = "proj/sub/bad.txt") "proj") = true ∧
    "data" ≠ DIR_SENTINEL ∧
    (fun p => p = "proj/sub/bad.txt") (pathJoin "proj" "sub/bad.txt") = true ∧
    execute_action (fun p => p = "proj/sub/bad.txt") ""
        (mkAction "create_files" (Json.obj ([("ok.txt", Json.str "fine")] ++
          ("sub/bad.txt", Json.str "data") :: [("never.txt", Json.str "z")])))
        ⟨"cwd", some "proj", []⟩ =
      ⟨⟨"cwd", some "proj", []⟩,
        (createFilesLoop (fun p => p = "proj/sub/bad.txt") "proj" [("ok.txt", Json.str "fine")]).1 ++
          [Effect.mkdir (parentDir (pathJoin "proj" "sub/bad.txt"))],
        some (PyErr.osError (pathJoin "proj" "sub/bad.txt"))⟩ :=
  ⟨by decide, by decide, by decide,
    create_files_io_error_propagates (fun p => p = "proj/sub/bad.txt") "" "cwd" "proj" []
      [("ok.txt", Json.str "fine")] [("never.txt", Json.str "z")] "sub/bad.txt" "data"
      (by decide) (by decide) (by decide)⟩

/-! ## C1 / C3 — the retry loop -/

/-- Is the loop still running (fuel exhausted before the call ended)? -/
def ChatOut.isRunning : ChatOut → Bool
  | ChatOut.running _ => true
  | _ => false

/-- `chat_with_ai` on this input never leaves the retry loop, however many
iterations are observed. -/
def neverReturns (userInput : String) (hist : List Json) (oracle : Nat → Outcome) : Prop :=
  ∀ fuel, (chat_with_ai userInput hist oracle fuel).isRunning = true

/-- Under persistently malformed replies the loop never ends: the repair
branch re-enters the loop without touching `retries` (lines 166-172), so
`retries < 5` holds forever. -/
theorem runChat_const_malformed_running (e : String) :
    ∀ (fuel : Nat) (st : LoopSt), st.retries < 5 →
      (runChat (fun _ => Outcome.malformed e) fuel st).isRunning = true := by
  intro fuel
  induction fuel with
  | zero => intro st h; rfl
  | succ n ih =>
    intro st h
    simp only [runChat]
    rw [if_pos h]
    show (runChat (fun k => Outcome.malformed e) n
      ⟨st.retries, st.history ++ [mkMsg "user" (reformatPrompt e)], true, st.delays⟩).isRunning = true
    exact ih _ h

/-- C1 counterexample: when every reply fails JSON parsing, `chat_with_ai`
never returns — the 5-attempt budget used for transport failures does not
bound the repair loop, because the `except (json.JSONDecodeError, KeyError)`
branch `continue`s without incrementing `retries`. -/
theorem chat_repair_loop_never_returns_cex :
    neverReturns "make a file" [] (fun _ => Outcome.malformed "Expecting value") :=
  fun fuel => runChat_const_malformed_running "Expecting value" fuel _ (by decide)

/-- A reply sequence of `i` malformed replies followed by one well-formed
reply. -/
def malformedThenGood (e raw : String) (parsed : Json) : Nat → Nat → Outcome
  | 0, _ => Outcome.good raw parsed
  | _ + 1, 0 => Outcome.malformed e
  | i + 1, n + 1 => malformedThenGood e raw parsed i n

/-- Each malformed reply appends one corrective message and re-issues the
request; the well-formed reply is returned on the following attempt. -/
theorem runChat_malformedThenGood (e raw : String) (parsed : Json) :
    ∀ (i : Nat) (st : LoopSt), st.retries < 5 →
      runChat (malformedThenGood e raw parsed i) (i + 1) st =
        ChatOut.ok parsed ⟨st.retries,
          st.history ++ List.replicate i (mkMsg "user" (reformatPrompt e)) ++ [mkMsg "model" raw],
          true, st.delays⟩ := by
  intro i
  induction i with
  | zero =>
    intro st h
    simp only [runChat]
    rw [if_pos h]
    simp [chatStep, malformedThenGood]
  | succ n ih =>
    intro st h
    simp only [runChat]
    rw [if_pos h]
    show runChat (fun k => malformedThenGood e raw parsed (n + 1) (k + 1)) (n + 1)
        ⟨st.retries, st.history ++ [mkMsg "user" (reformatPrompt e)], true, st.delays⟩ = _
    rw [show (fun k => malformedThenGood e raw parsed (n + 1) (k + 1)) =
      malformedThenGood e raw parsed n from rfl]
    rw [ih ⟨st.retries, st.history ++ [mkMsg "user" (reformatPrompt e)], true, st.delays⟩ h]
    simp [List.replicate_succ, List.append_assoc]

/-- C1 (amended): the repair loop terminates whenever a well-formed reply
eventually arrives — after `i` malformed replies it returns the parsed
response on attempt `i + 1`, with the user turn, `i` corrective messages and
the model reply appended in order and the retry counter still 0; but the
counter not being incremented means the 5-attempt budget never bounds the
repair looping (see the counterexample). -/
theorem chat_repair_terminates_on_wellformed (userInput e raw : String) (parsed : Json)
    (hist : List Json) (i : Nat) :
    chat_with_ai userInput hist (malformedThenGood e raw parsed i) (i + 1) =
      ChatOut.ok parsed ⟨0,
        (hist ++ [mkMsg "user" userInput]) ++
          List.replicate i (mkMsg "user" (reformatPrompt e)) ++ [mkMsg "model" raw],
        true, []⟩ :=
  runChat_malformedThenGood e raw parsed i
    ⟨0, hist ++ [mkMsg "user" userInput], false, []⟩ (show (0 : Nat) < 5 by decide)

/-- C3: transport failures.  (1) When `requests.post` itself raises on the
first attempt (timeout / connection error), the handler's diagnostic reads
the never-assigned local `response` (line 163) and the call crashes with
`UnboundLocalError` instead of retrying — the history keeps the just-added
user message only.  (2) In the sub-case where every attempt returns a
response and `raise_for_status` raises (non-2xx), the claimed behaviour does
occur: exactly 5 attempts, strictly increasing doubling delays 2, 4, 8, 16,
32, then the Failure return, with no model message appended. -/
theorem chat_transport_crash_and_clean_exhaustion :
    chat_with_ai "hello" [] (fun _ => Outcome.postRaises) 10 =
      ChatOut.crashed PyErr.unboundLocal ⟨1, [mkMsg "user" "hello"], false, []⟩ ∧
    chat_with_ai "hello" [] (fun _ => Outcome.badStatus) 6 =
      ChatOut.failed ⟨5, [mkMsg "user" "hello"], true, [2, 4, 8, 16, 32]⟩ :=
  ⟨rfl, rfl⟩

/-! ## C5 / C6 — the approval gate and persistence -/

/-- C5: for a response whose action is truthy and flagged
`requires_approval`, any operator reply other than `y` (case-insensitive)
discards the action: no exception, `root_dir` untouched, exactly one
corrective message appended to the history, and not a single
filesystem-mutating effect in the whole turn.  The hypotheses state that the
response carries a `message`, a truthy dict action and a truthy flag, and
that the description synthesis returns (it does for every well-formed
payload). -/
theorem approval_decline_no_fs_effect (ioErr : String → Bool) (pn approval : String)
    (rkvs : List (String × Json)) (st : SessionSt) (m : Json)
    (hm : getKey? rkvs "message" = some m)
    (haction : pyTruthy (getKeyD rkvs "action" Json.null) = true)
    (hreq : pyTruthy (getKeyD rkvs "requires_approval" (Json.bool false)) = true)
    (akvs : List (String × Json)) (hobj : getKeyD rkvs "action" Json.null = Json.obj akvs)
    (desc : String) (hdesc : actionDescription akvs = Except.ok desc)
    (hn : pyLower approval ≠ "y") :
    (main_turn ioErr pn approval (Json.obj rkvs) st).err = none ∧
    (main_turn ioErr pn approval (Json.obj rkvs) st).st.rootDir = st.rootDir ∧
    (main_turn ioErr pn approval (Json.obj rkvs) st).st.history = st.history ++ [declineMsg] ∧
    (main_turn ioErr pn approval (Json.obj rkvs) st).fx.filter Effect.mutatesFs = [] := by
  have key : main_turn ioErr pn approval (Json.obj rkvs) st =
      ⟨⟨st.cwd, st.rootDir, st.history ++ [declineMsg]⟩,
        [Effect.print ("\nAI: " ++ pyStr m)] ++
          (if desc ≠ "" then [Effect.print ("\nWith your approval, I will " ++ desc)] else []) ++
          [Effect.promptUser "Do you approve this action? (y/n): "] ++
          [Effect.print "Action cancelled. Please provide new instructions."], none⟩ := by
    simp only [main_turn]
    rw [hm]
    dsimp only
    rw [haction, hreq]
    simp only [Bool.and_self, if_true]
    rw [hobj]
    dsimp only
    rw [hdesc]
    dsimp only
    rw [if_neg hn]
  rw [key]
  refine ⟨rfl, rfl, rfl, ?_⟩
  by_cases hd : desc = ""
  · simp [hd, Effect.mutatesFs]
  · simp [hd, Effect.mutatesFs]

/-- A response proposing a `milestones` action with `requires_approval`
set. -/
def approvalScenarioResp : Json :=
  Json.obj [("message", Json.str "ok"), ("requires_approval", Json.bool true),
    ("action", mkAction "milestones" (Json.obj [("milestones", Json.arr [])]))]

/-- Witness for C5: declining a concrete approval-flagged milestones action
leaves the filesystem untouched and appends exactly the decline notice. -/
theorem approval_decline_no_fs_effect_witness :
    (main_turn noIoErr "" "n" approvalScenarioResp ⟨"cwd", some "proj", []⟩).err = none ∧
    (main_turn noIoErr "" "n" approvalScenarioResp ⟨"cwd", some "proj", []⟩).st.rootDir = some "proj" ∧
    (main_turn noIoErr "" "n" approvalScenarioResp ⟨"cwd", some "proj", []⟩).st.history = [] ++ [declineMsg] ∧
    (main_turn noIoErr "" "n" approvalScenarioResp ⟨"cwd", some "proj", []⟩).fx.filter Effect.mutatesFs = [] :=
  approval_decline_no_fs_effect noIoErr "" "n"
    [("message", Json.str "ok"), ("requires_approval", Json.bool true),
      ("action", mkAction "milestones" (Json.obj [("milestones", Json.arr [])]))]
    ⟨"cwd", some "proj", []⟩ (Json.str "ok") rfl rfl rfl
    [("command", Json.str "milestones"), ("payload", Json.obj [("milestones", Json.arr [])])]
    rfl "update the project milestones." rfl (by decide)

/-- C6 counterexample: a decline does **not** rewrite the state file — the
decline branch (lines 343-346) appends the notice to the in-memory history
but never calls `save_project_state`, so the on-disk state does not reflect
the decline's history entry, contrary to the claim's "overwritten after
every approval decision, including a decline". -/
theorem decline_not_persisted_cex :
    stateFileWrites (main_turn noIoErr "" "n" approvalScenarioResp ⟨"cwd", some "proj", []⟩).fx = [] ∧
    (main_turn noIoErr "" "n" approvalScenarioResp ⟨"cwd", some "proj", []⟩).st.history = [declineMsg] ∧
    (main_turn noIoErr "" "n" approvalScenarioResp ⟨"cwd", some "proj", []⟩).err = none :=
  ⟨rfl, rfl, rfl⟩

/-- C6 (amended): the state file is rewritten after an executed action —
whether auto-executed (`requires_approval` falsy, lines 347-349) or approved
(`y` at the gate, lines 340-342) — that completes without raising: whenever
`root_dir` ends up set, the log contains the state-file write holding the
final root and history (this covers its creation by a first `init_project`
as well).  A decline rewrites nothing: the turn performs no state-file write
at all. -/
theorem state_file_persisted_only_on_execute (ioErr : String → Bool) (pn approval : String)
    (rkvs : List (String × Json)) (st : SessionSt) (m : Json)
    (hm : getKey? rkvs "message" = some m)
    (haction : pyTruthy (getKeyD rkvs "action" Json.null) = true)
    (akvs : List (String × Json)) (hobj : getKeyD rkvs "action" Json.null = Json.obj akvs) :
    (pyTruthy (getKeyD rkvs "requires_approval" (Json.bool false)) = true →
      ∀ desc, actionDescription akvs = Except.ok desc →
        (if pyLower approval = "y" then
          ((main_turn ioErr pn approval (Json.obj rkvs) st).err = none →
            ∀ r', (main_turn ioErr pn approval (Json.obj rkvs) st).st.rootDir = some r' →
              Effect.writeJson STATE_FILE
                  (stateToJson r' (main_turn ioErr pn approval (Json.obj rkvs) st).st.history) ∈
                (main_turn ioErr pn approval (Json.obj rkvs) st).fx)
         else stateFileWrites (main_turn ioErr pn approval (Json.obj rkvs) st).fx = [])) ∧
    (pyTruthy (getKeyD rkvs "requires_approval" (Json.bool false)) = false →
      ((main_turn ioErr pn approval (Json.obj rkvs) st).err = none →
        ∀ r', (main_turn ioErr pn approval (Json.obj rkvs) st).st.rootDir = some r' →
          Effect.writeJson STATE_FILE
              (stateToJson r' (main_turn ioErr pn approval (Json.obj rkvs) st).st.history) ∈
            (main_turn ioErr pn approval (Json.obj rkvs) st).fx)) := by
  constructor
  · intro hreq desc hdesc
    by_cases hy : pyLower approval = "y"
    · rw [if_pos hy]
      have key : main_turn ioErr pn approval (Json.obj rkvs) st =
          (match (execute_action ioErr pn (Json.obj akvs) st).err with
           | none =>
             ⟨(execute_action ioErr pn (Json.obj akvs) st).st,
               [Effect.print ("\nAI: " ++ pyStr m)] ++
                 (if desc ≠ "" then [Effect.print ("\nWith your approval, I will " ++ desc)] else []) ++
                 [Effect.promptUser "Do you approve this action? (y/n): "] ++
                 (execute_action ioErr pn (Json.obj akvs) st).fx ++
                 save_project_state (execute_action ioErr pn (Json.obj akvs) st).st, none⟩
           | some e =>
             ⟨(execute_action ioErr pn (Json.obj akvs) st).st,
               [Effect.print ("\nAI: " ++ pyStr m)] ++
                 (if desc ≠ "" then [Effect.print ("\nWith your approval, I will " ++ desc)] else []) ++
                 [Effect.promptUser "Do you approve this action? (y/n): "] ++
                 (execute_action ioErr pn (Json.obj akvs) st).fx, some e⟩ : ExecOut) := by
        simp only [main_turn]
        rw [hm]
        dsimp only
        rw [haction, hreq]
        simp only [Bool.and_self, if_true]
        rw [hobj]
        dsimp only
        rw [hdesc]
        dsimp only
        rw [if_pos hy]
      rw [key]
      cases hex : (execute_action ioErr pn (Json.obj akvs) st).err with
      | none =>
        simp only [hex]
        intro _ r' hr
        rw [save_project_state, hr]
        simp
      | some e =>
        simp only [hex]
        intro h
        exact absurd h (by simp)
    · rw [if_neg hy]
      have key : main_turn ioErr pn approval (Json.obj rkvs) st =
          ⟨⟨st.cwd, st.rootDir, st.history ++ [declineMsg]⟩,
            [Effect.print ("\nAI: " ++ pyStr m)] ++
              (if desc ≠ "" then [Effect.print ("\nWith your approval, I will " ++ desc)] else []) ++
              [Effect.promptUser "Do you approve this action? (y/n): "] ++
              [Effect.print "Action cancelled. Please provide new instructions."], none⟩ := by
        simp only [main_turn]
        rw [hm]
        dsimp only
        rw [haction, hreq]
        simp only [Bool.and_self, if_true]
        rw [hobj]
        dsimp only
        rw [hdesc]
        dsimp only
        rw [if_neg hy]
      rw [key]
      by_cases hd : desc = ""
      · simp [hd, stateFileWrites]
      · simp [hd, stateFileWrites]
  · intro hreq
    have key : main_turn ioErr pn approval (Json.obj rkvs) st =
        (match (execute_action ioErr pn (Json.obj akvs) st).err with
         | none =>
           ⟨(execute_action ioErr pn (Json.obj akvs) st).st,
             [Effect.print ("\nAI: " ++ pyStr m)] ++
               (execute_action ioErr pn (Json.obj akvs) st).fx ++
               save_project_state (execute_action ioErr pn (Json.obj akvs) st).st, none⟩
         | some e =>
           ⟨(execute_action ioErr pn (Json.obj akvs) st).st,
             [Effect.print ("\nAI: " ++ pyStr m)] ++
               (execute_action ioErr pn (Json.obj akvs) st).fx, some e⟩ : ExecOut) := by
      simp only [main_turn]
      rw [hm]
      dsimp only
      rw [haction, hreq]
      simp only [Bool.and_false, Bool.false_eq_true, if_false, eq_self_iff_true, if_true]
      rw [hobj]
    rw [key]
    cases hex : (execute_action ioErr pn (Json.obj akvs) st).err with
    | none =>
      simp only [hex]
      intro _ r' hr
      rw [save_project_state, hr]
      simp
    | some e =>
      simp only [hex]
      intro h
      exact absurd h (by simp)

/-- A response proposing the same milestones action with no
`requires_approval` flag (the `.get` default `False` makes it falsy): the
auto-execute path. -/
def autoScenarioResp : Json :=
  Json.obj [("message", Json.str "ok"),
    ("action", mkAction "milestones" (Json.obj [("milestones", Json.arr [])]))]

/-- Witness for C6 (amended): both an approved and an auto-executed concrete
milestones action make the turn end with a state-file write of the final
state. -/
theorem state_file_persisted_only_on_execute_witness :
    (Effect.writeJson STATE_FILE (stateToJson "proj" []) ∈
      (main_turn noIoErr "" "y" approvalScenarioResp ⟨"cwd", some "proj", []⟩).fx) ∧
    (Effect.writeJson STATE_FILE (stateToJson "proj" []) ∈
      (main_turn noIoErr "" "n" autoScenarioResp ⟨"cwd", some "proj", []⟩).fx) := by
  constructor
  · have h := state_file_persisted_only_on_execute noIoErr "" "y"
      [("message", Json.str "ok"), ("requires_approval", Json.bool true),
        ("action", mkAction "milestones" (Json.obj [("milestones", Json.arr [])]))]
      ⟨"cwd", some "proj", []⟩ (Json.str "ok") rfl rfl
      [("command", Json.str "milestones"), ("payload", Json.obj [("milestones", Json.arr [])])] rfl
    have h1 := h.1 rfl "update the project milestones." rfl
    rw [if_pos (show pyLower "y" = "y" from rfl)] at h1
    exact h1 rfl "proj" rfl
  · have h := state_file_persisted_only_on_execute noIoErr "" "n"
      [("message", Json.str "ok"),
        ("action", mkAction "milestones" (Json.obj [("milestones", Json.arr [])]))]
      ⟨"cwd", some "proj", []⟩ (Json.str "ok") rfl rfl
      [("command", Json.str "milestones"), ("payload", Json.obj [("milestones", Json.arr [])])] rfl
    exact h.2 rfl rfl "proj" rfl
